import Mathlib

/-!
Shallow embedding of the conversation session manager of `chatbot.py`
(a Streamlit chat UI over the Gemini generative-language API), together
with theorems about its behaviour.

The embedded pieces are, in source order:
  * `configure_gemini_api` (chatbot.py lines 56-64),
  * `get_gemini_response` and its prompt assembly (lines 66-83),
  * the sidebar API-key block of `main` (lines 126-134),
  * the Clear-Chat and Export-Chat blocks of `main` (lines 166-186),
  * the user-input processing block of `main` (lines 256-287).

External effects are abstracted: the Gemini client is a value recording
the key and model name it was built from, validation of a key is an
arbitrary predicate `valid`, and the provider round-trip is an arbitrary
function `send` returning either the reply text or a failure cause
(Python's `str(e)` of the raised exception).  Timestamps are abstract
instants (`Nat`); the temperature and max-token sliders are abstracted to
`Nat` positions, since the source never reads their values outside the
sidebar.
-/

namespace Chatbot

/-- One chat exchange, as stored in `st.session_state.messages`
(chatbot.py lines 280-284): a dict with keys `user`, `assistant`,
`timestamp`. -/
structure Exchange where
  user : String
  assistant : String
  timestamp : Nat
deriving Repr, DecidableEq

/-- The ordered chat history `st.session_state.messages`. -/
abbrev Transcript := List Exchange

/-- One entry of the `chat_history` argument of `get_gemini_response`:
`main` (lines 267-268) projects each stored message to a dict with only
the `user` and `assistant` keys. -/
structure HistEntry where
  user : String
  assistant : String
deriving Repr, DecidableEq

/-- The projection performed in `main` lines 267-268:
`[{"user": msg["user"], "assistant": msg["assistant"]} for msg in messages]`. -/
def toHistory (messages : Transcript) : List HistEntry :=
  messages.map (fun msg => ⟨msg.user, msg.assistant⟩)

/-- The opaque provider-client handle returned by
`genai.GenerativeModel('gemini-2.0-flash')` after `genai.configure(api_key=...)`:
abstracted as a record of the key it was configured with and the hard-coded
model name. -/
structure Client where
  key : String
  modelName : String
deriving Repr, DecidableEq

/-- The rerun-persistent session state: `st.session_state.messages`,
`st.session_state.api_key_configured`, `st.session_state.model`
(chatbot.py lines 47-54), together with the sidebar widget values
(`api_key` text input, `temperature` and `max_tokens` sliders), which
Streamlit also persists across reruns.  Slider positions are abstracted
to `Nat`. -/
structure SessionState where
  messages : Transcript
  apiKeyConfigured : Bool
  model : Option Client
  apiKey : String
  temperature : Nat
  maxTokens : Nat
deriving Repr, DecidableEq

/-- chatbot.py lines 56-64: `configure_gemini_api(api_key)`.
`valid` abstracts whether `genai.configure` + `GenerativeModel` succeed
for the given key.  Returns `(model, success)`; on failure the source
calls `st.error(...)` (reports a configuration error) and returns
`(None, False)`. -/
def configure_gemini_api (valid : String → Bool) (api_key : String) :
    Option Client × Bool :=
  if valid api_key then (some ⟨api_key, "gemini-2.0-flash"⟩, true)
  else (none, false)

/-- Python's `"sep".join(strs)`: the elements of `strs` concatenated with
`sep` between consecutive elements. -/
def pyJoin (sep : String) : List String → String
  | [] => ""
  | [a] => a
  | a :: b :: rest => a ++ sep ++ pyJoin sep (b :: rest)

/-- Python's `l[-5:]`, generalised: the suffix of the last `n` elements
(the whole list when it has fewer than `n`). -/
def lastN (n : Nat) (l : List α) : List α :=
  l.drop (l.length - n)

/-- chatbot.py lines 74-75: the context string built inside
`get_gemini_response`:
`"\n".join([f"User: {msg['user']}\nAssistant: {msg['assistant']}" for msg in chat_history[-5:]])`. -/
def context (chat_history : List HistEntry) : String :=
  pyJoin "\n"
    ((lastN 5 chat_history).map
      (fun msg => "User: " ++ msg.user ++ "\nAssistant: " ++ msg.assistant))

/-- chatbot.py lines 72-78: the `full_prompt` assembled by
`get_gemini_response`: the bare prompt when `chat_history` is falsy
(empty), otherwise the "Previous conversation" wrapper around the
windowed context. -/
def assemble_prompt (prompt : String) (chat_history : List HistEntry) : String :=
  if chat_history.isEmpty then prompt
  else "Previous conversation:\n" ++ context chat_history
        ++ "\n\nCurrent question: " ++ prompt

/-- chatbot.py lines 66-83: `get_gemini_response(model, prompt, chat_history)`.
`send` abstracts the provider round-trip
`model.start_chat(history=[]).send_message(full_prompt)`: it yields the
reply text on success, or the failure cause (`str(e)`) on any exception.
The `except` branch folds the failure into the returned string. -/
def get_gemini_response (send : Client → String → Except String String)
    (model : Client) (prompt : String) (chat_history : List HistEntry) : String :=
  let full_prompt := assemble_prompt prompt chat_history
  match send model full_prompt with
  | .ok text => text
  | .error e => "Error generating response: " ++ e

/-- Python whitespace as stripped by `str.strip()` (ASCII range). -/
def isPySpace (c : Char) : Bool :=
  c == ' ' || c == '\t' || c == '\n' || c == '\r' || c == '\x0b' || c == '\x0c'

/-- Python's `s.strip()`: remove leading and trailing whitespace. -/
def pyStrip (s : String) : String :=
  String.mk (((s.data.dropWhile isPySpace).reverse.dropWhile isPySpace).reverse)

/-- chatbot.py lines 126-134: one evaluation of the sidebar API-key block.
Given the current widget text `api_key`, re-validates only when the key
is non-empty and either no successful configuration is recorded or no
model is stored; on success stores the returned model and sets the flag,
on failure clears the flag and leaves the stored model untouched.
Returns the new state together with two observations: whether
`configure_gemini_api` was invoked, and whether a configuration error
was reported (`st.error` in `configure_gemini_api` fires exactly when it
returns `success = False`). -/
def submitApiKey (valid : String → Bool) (s : SessionState) (api_key : String) :
    SessionState × Bool × Bool :=
  if !(api_key == "") then
    if !s.apiKeyConfigured || s.model.isNone then
      match configure_gemini_api valid api_key with
      | (m, true) =>
        ({ s with apiKey := api_key, model := m, apiKeyConfigured := true },
         true, false)
      | (_, false) =>
        ({ s with apiKey := api_key, apiKeyConfigured := false },
         true, true)
    else ({ s with apiKey := api_key }, false, false)
  else (s, false, false)

/-- chatbot.py lines 168-170: the Clear-Chat button sets
`st.session_state.messages = []` and nothing else. -/
def clearChat (s : SessionState) : SessionState :=
  { s with messages := [] }

/-- chatbot.py lines 175-179: the `chat_export` list built by the export
loop, appending `User: ...`, `Assistant: ...`, `---` for each message. -/
def exportLines (messages : Transcript) : List String :=
  messages.foldl
    (fun chat_export msg =>
      chat_export ++ ["User: " ++ msg.user, "Assistant: " ++ msg.assistant, "---"])
    []

/-- chatbot.py line 183: the exported text `"\n".join(chat_export)`. -/
def exportText (messages : Transcript) : String :=
  pyJoin "\n" (exportLines messages)

/-- chatbot.py lines 280-284: `st.session_state.messages.append({...})`. -/
def appendExchange (messages : Transcript) (user assistant : String)
    (timestamp : Nat) : Transcript :=
  messages ++ [⟨user, assistant, timestamp⟩]

/-- chatbot.py lines 214, 256-287: one evaluation of the chat form,
guarded by `st.session_state.api_key_configured` (line 205/214) and by
`submit_button and user_input.strip()` (line 257).  When the guard holds,
the stored model is used to obtain `get_gemini_response` on the projected
history and the resulting exchange is appended.  The second component is
an observation of the provider request made, if any: the client handle
and the prompt handed to it.  The `none` model branch is unreachable in
states where the configured flag implies a stored client. -/
def sendStep (send : Client → String → Except String String)
    (s : SessionState) (user_input : String) (submit_button : Bool)
    (now : Nat) : SessionState × Option (Client × String) :=
  if s.apiKeyConfigured && submit_button && !(pyStrip user_input == "") then
    match s.model with
    | some m =>
      let chat_history := toHistory s.messages
      let ai_response := get_gemini_response send m user_input chat_history
      ({ s with messages := appendExchange s.messages user_input ai_response now },
       some (m, assemble_prompt user_input chat_history))
    | none => (s, none)
  else (s, none)

/-- The context rendering as the spec words it: the last `min(N, 5)`
exchanges, two lines (`User: ...` then `Assistant: ...`) per exchange,
in chronological order, joined by newlines.  Written from the spec's
words, for comparison with `context`. -/
def contextSpecRender (chat_history : List HistEntry) : String :=
  pyJoin "\n"
    ((chat_history.drop (chat_history.length - min chat_history.length 5)).flatMap
      (fun msg => ["User: " ++ msg.user, "Assistant: " ++ msg.assistant]))

/-! Helper lemmas about `pyJoin` and the windowing. -/

theorem pyJoin_cons_cons (sep a b : String) (l : List String) :
    pyJoin sep (a :: b :: l) = a ++ sep ++ pyJoin sep (b :: l) := rfl

theorem pyJoin_cons_of_ne_nil (sep a : String) (l : List String) (h : l ≠ []) :
    pyJoin sep (a :: l) = a ++ sep ++ pyJoin sep l := by
  cases l with
  | nil => exact absurd rfl h
  | cons b t => rfl

theorem pyJoin_append (sep : String) (l₁ l₂ : List String)
    (h₁ : l₁ ≠ []) (h₂ : l₂ ≠ []) :
    pyJoin sep (l₁ ++ l₂) = pyJoin sep l₁ ++ sep ++ pyJoin sep l₂ := by
  induction l₁ with
  | nil => exact absurd rfl h₁
  | cons a t ih =>
    have hne : t ++ l₂ ≠ [] := by
      cases l₂ with
      | nil => exact absurd rfl h₂
      | cons c cs => simp
    rw [List.cons_append, pyJoin_cons_of_ne_nil sep a (t ++ l₂) hne]
    cases t with
    | nil => rfl
    | cons b t' =>
      rw [ih (List.cons_ne_nil b t'),
          pyJoin_cons_of_ne_nil sep a (b :: t') (List.cons_ne_nil b t')]
      simp [String.append_assoc]

theorem render_pair (u a : String) :
    "User: " ++ u ++ "\nAssistant: " ++ a
      = ("User: " ++ u) ++ "\n" ++ ("Assistant: " ++ a) := by
  rw [String.append_assoc ("User: " ++ u) "\nAssistant: " a,
      String.append_assoc ("User: " ++ u) "\n" ("Assistant: " ++ a)]
  exact congrArg (fun x => "User: " ++ u ++ x) (String.append_assoc "\n" "Assistant: " a)

theorem pyJoin_map_pair_gen {α : Type} (p q : α → String) (l : List α) :
    pyJoin "\n" (l.map (fun m => p m ++ "\n" ++ q m))
      = pyJoin "\n" (l.flatMap (fun m => [p m, q m])) := by
  induction l with
  | nil => rfl
  | cons a t ih =>
    cases t with
    | nil => rfl
    | cons b t' =>
      have h1 : ((a :: b :: t').map (fun m => p m ++ "\n" ++ q m))
          = [p a ++ "\n" ++ q a] ++ ((b :: t').map (fun m => p m ++ "\n" ++ q m)) := rfl
      have h2 : ((a :: b :: t').flatMap (fun m => [p m, q m]))
          = [p a, q a] ++ ((b :: t').flatMap (fun m => [p m, q m])) := rfl
      rw [h1, h2, pyJoin_append _ _ _ (by simp) (by simp),
          pyJoin_append _ _ _ (by simp) (by simp [List.flatMap_cons]), ih]
      rfl

theorem context_eq_twoLine (l : List HistEntry) :
    pyJoin "\n" (l.map (fun msg => "User: " ++ msg.user ++ "\nAssistant: " ++ msg.assistant))
      = pyJoin "\n" (l.flatMap (fun msg => ["User: " ++ msg.user, "Assistant: " ++ msg.assistant])) := by
  have h : (fun (msg : HistEntry) => "User: " ++ msg.user ++ "\nAssistant: " ++ msg.assistant)
      = (fun msg => ("User: " ++ msg.user) ++ "\n" ++ ("Assistant: " ++ msg.assistant)) := by
    funext msg
    exact render_pair msg.user msg.assistant
  rw [h]
  exact pyJoin_map_pair_gen (fun msg => "User: " ++ msg.user)
    (fun msg => "Assistant: " ++ msg.assistant) l

theorem foldl_append_flatMap (g : α → List β) (t : List α) (acc : List β) :
    t.foldl (fun r m => r ++ g m) acc = acc ++ t.flatMap g := by
  induction t generalizing acc with
  | nil => simp
  | cons a t ih => simp [List.foldl_cons, List.flatMap_cons, ih, List.append_assoc]

/-! Theorems about the claims. -/

/-- C1: for every transcript of N exchanges and every user message, the context
used by `get_gemini_response` is exactly the last `min(N, 5)` exchanges of the
transcript, in chronological order (it is a suffix), rendered as one
`User: ...` line followed by one `Assistant: ...` line per exchange, all lines
joined by newlines. -/
theorem context_windowing (chat_history : List HistEntry) :
    context chat_history = contextSpecRender chat_history
    ∧ (lastN 5 chat_history).length = min chat_history.length 5
    ∧ lastN 5 chat_history <:+ chat_history := by
  refine ⟨?_, ?_, List.drop_suffix _ _⟩
  · unfold context contextSpecRender
    have h : chat_history.length - min chat_history.length 5
        = chat_history.length - 5 := by omega
    rw [h]
    exact context_eq_twoLine (lastN 5 chat_history)
  · simp only [lastN, List.length_drop]
    omega

/-- C2: in the send path, when the transcript is empty the prompt handed to the
provider equals the user's message exactly (no wrapper); when it is non-empty
the prompt equals `"Previous conversation:\n"` followed by the rendered
context, followed by `"\n\nCurrent question: "` and the user's message. -/
theorem prompt_assembly (send : Client → String → Except String String)
    (s : SessionState) (m : Client) (u : String) (now : Nat)
    (hc : s.apiKeyConfigured = true) (hm : s.model = some m)
    (hu : pyStrip u ≠ "") :
    (s.messages = [] → (sendStep send s u true now).2 = some (m, u))
    ∧ (s.messages ≠ [] → (sendStep send s u true now).2
        = some (m, "Previous conversation:\n" ++ context (toHistory s.messages)
            ++ "\n\nCurrent question: " ++ u)) := by
  constructor
  · intro h
    simp [sendStep, hc, hm, hu, h, assemble_prompt, toHistory]
  · intro h
    have hne : (toHistory s.messages).isEmpty = false := by
      simp [toHistory, List.isEmpty_eq_false, h]
    simp [sendStep, hc, hm, hu, assemble_prompt, hne]

/-- Witness for `prompt_assembly` at concrete inputs: an empty transcript and a
one-exchange transcript. -/
theorem prompt_assembly_witness :
    (sendStep (fun _ _ => .ok "fine")
        ⟨[], true, some ⟨"key", "gemini-2.0-flash"⟩, "key", 7, 500⟩ "hi" true 3).2
      = some (⟨"key", "gemini-2.0-flash"⟩, "hi")
    ∧ (sendStep (fun _ _ => .ok "fine")
        ⟨[⟨"q", "a", 0⟩], true, some ⟨"key", "gemini-2.0-flash"⟩, "key", 7, 500⟩
        "hi" true 3).2
      = some (⟨"key", "gemini-2.0-flash"⟩,
          "Previous conversation:\n" ++ context (toHistory [⟨"q", "a", 0⟩])
            ++ "\n\nCurrent question: " ++ "hi") :=
  ⟨(prompt_assembly (fun _ _ => .ok "fine")
      ⟨[], true, some ⟨"key", "gemini-2.0-flash"⟩, "key", 7, 500⟩
      ⟨"key", "gemini-2.0-flash"⟩ "hi" 3 rfl rfl (by decide)).1 rfl,
   (prompt_assembly (fun _ _ => .ok "fine")
      ⟨[⟨"q", "a", 0⟩], true, some ⟨"key", "gemini-2.0-flash"⟩, "key", 7, 500⟩
      ⟨"key", "gemini-2.0-flash"⟩ "hi" 3 rfl rfl (by decide)).2 (by decide)⟩

/-- C3: when the provider call fails with cause `c`, `get_gemini_response`
returns the string `"Error generating response: " ++ c` instead of
propagating the failure, and the send path appends this value to the
transcript as the exchange's assistant text like any successful reply. -/
theorem failsoft_error (send : Client → String → Except String String)
    (s : SessionState) (m : Client) (u c : String) (now : Nat)
    (hc : s.apiKeyConfigured = true) (hm : s.model = some m)
    (hu : pyStrip u ≠ "")
    (he : send m (assemble_prompt u (toHistory s.messages)) = .error c) :
    get_gemini_response send m u (toHistory s.messages)
        = "Error generating response: " ++ c
    ∧ (sendStep send s u true now).1.messages
        = s.messages ++ [⟨u, "Error generating response: " ++ c, now⟩] := by
  have hresp : get_gemini_response send m u (toHistory s.messages)
      = "Error generating response: " ++ c := by
    simp [get_gemini_response, he]
  exact ⟨hresp, by simp [sendStep, hc, hm, hu, appendExchange, hresp]⟩

/-- Witness for `failsoft_error`: a provider that always fails with cause
`"timeout"` yields exactly `"Error generating response: timeout"`, appended to
the transcript. -/
theorem failsoft_error_witness :
    get_gemini_response (fun _ _ => .error "timeout")
        ⟨"key", "gemini-2.0-flash"⟩ "hi" (toHistory [])
      = "Error generating response: " ++ "timeout"
    ∧ (sendStep (fun _ _ => .error "timeout")
        ⟨[], true, some ⟨"key", "gemini-2.0-flash"⟩, "key", 7, 500⟩
        "hi" true 0).1.messages
      = [] ++ [⟨"hi", "Error generating response: " ++ "timeout", 0⟩] :=
  failsoft_error (fun _ _ => .error "timeout")
    ⟨[], true, some ⟨"key", "gemini-2.0-flash"⟩, "key", 7, 500⟩
    ⟨"key", "gemini-2.0-flash"⟩ "hi" "timeout" 0 rfl rfl (by decide) rfl

/-- C4: `exportText` emits, for each exchange in chronological order, the three
lines `User: ...`, `Assistant: ...`, `---`, joined by newlines with no header
and no trailing metadata; in particular the one-exchange transcript with user
text `"hi"` and assistant text `"hello"` exports exactly
`"User: hi\nAssistant: hello\n---"`, whatever its timestamp. -/
theorem export_format (t : Transcript) (ts : Nat) :
    exportText t = pyJoin "\n"
        (t.flatMap (fun msg => ["User: " ++ msg.user, "Assistant: " ++ msg.assistant, "---"]))
    ∧ exportText [⟨"hi", "hello", ts⟩] = "User: hi\nAssistant: hello\n---" := by
  constructor
  · unfold exportText exportLines
    rw [foldl_append_flatMap
        (fun msg => ["User: " ++ msg.user, "Assistant: " ++ msg.assistant, "---"]) t []]
    rfl
  · rfl

/-- C5: `clearChat` yields a transcript of length zero regardless of prior
contents and leaves every other component of the session state — the stored
API key, the provider-client handle (which carries the model name), the
configured flag, and the temperature and max-token settings — unchanged. -/
theorem clear_chat_frame (s : SessionState) :
    (clearChat s).messages.length = 0
    ∧ (clearChat s).messages = []
    ∧ (clearChat s).apiKey = s.apiKey
    ∧ (clearChat s).model = s.model
    ∧ (clearChat s).apiKeyConfigured = s.apiKeyConfigured
    ∧ (clearChat s).temperature = s.temperature
    ∧ (clearChat s).maxTokens = s.maxTokens :=
  ⟨rfl, rfl, rfl, rfl, rfl, rfl, rfl⟩

/-- C6, counterexample: the claim that after a successful configuration a key
submission with an invalid key reports a configuration error (and leaves the
client unchanged) is false on the code: once `api_key_configured` is set and a
model is stored, the sidebar block skips `configure_gemini_api` entirely, so
no error is reported.  Concretely, submitting `"bad"` (invalid under a
validator accepting only `"good"`) after a successful configuration with
`"good"` reports nothing. -/
theorem reconfigure_reports_no_error :
    ¬ (∀ (valid : String → Bool) (s : SessionState) (k : String),
        s.model.isSome = true → s.apiKeyConfigured = true → valid k = false →
        ((submitApiKey valid s k).2.2 = true
          ∧ (submitApiKey valid s k).1.model = s.model)) := by
  intro hclaim
  have h := hclaim (fun key => key == "good")
      ⟨[], true, some ⟨"good", "gemini-2.0-flash"⟩, "good", 7, 500⟩ "bad"
      rfl rfl (by decide)
  exact absurd h.1 (by decide)

/-- C6, amended: after a successful configuration (configured flag set, client
stored), a subsequent key submission — with an invalid key or any other — is
skipped entirely: `configure_gemini_api` is not invoked, no configuration
error is reported, and the previously stored client remains non-null and
unchanged (the transcript and the configured flag are also untouched). -/
theorem reconfigure_skip (valid : String → Bool) (s : SessionState)
    (api_key : String)
    (hc : s.apiKeyConfigured = true) (hm : s.model.isSome = true) :
    (submitApiKey valid s api_key).1.model = s.model
    ∧ (submitApiKey valid s api_key).1.model.isSome = true
    ∧ (submitApiKey valid s api_key).1.apiKeyConfigured = true
    ∧ (submitApiKey valid s api_key).1.messages = s.messages
    ∧ (submitApiKey valid s api_key).2.1 = false
    ∧ (submitApiKey valid s api_key).2.2 = false := by
  have hni : s.model.isNone = false := by
    cases h : s.model with
    | none => rw [h] at hm; exact absurd hm (by simp)
    | some m => simp
  by_cases hk : api_key = ""
  · subst hk
    simp [submitApiKey, hm, hc, hni]
  · simp [submitApiKey, hk, hc, hni, hm]

/-- Witness for `reconfigure_skip`: submitting `"bad"` after a successful
configuration with `"good"` leaves the stored client untouched and reports
nothing. -/
theorem reconfigure_skip_witness :
    (submitApiKey (fun key => key == "good")
        ⟨[], true, some ⟨"good", "gemini-2.0-flash"⟩, "good", 7, 500⟩ "bad").1.model
      = some ⟨"good", "gemini-2.0-flash"⟩
    ∧ (submitApiKey (fun key => key == "good")
        ⟨[], true, some ⟨"good", "gemini-2.0-flash"⟩, "good", 7, 500⟩ "bad").1.model.isSome
      = true
    ∧ (submitApiKey (fun key => key == "good")
        ⟨[], true, some ⟨"good", "gemini-2.0-flash"⟩, "good", 7, 500⟩
        "bad").1.apiKeyConfigured = true
    ∧ (submitApiKey (fun key => key == "good")
        ⟨[], true, some ⟨"good", "gemini-2.0-flash"⟩, "good", 7, 500⟩ "bad").1.messages
      = []
    ∧ (submitApiKey (fun key => key == "good")
        ⟨[], true, some ⟨"good", "gemini-2.0-flash"⟩, "good", 7, 500⟩ "bad").2.1 = false
    ∧ (submitApiKey (fun key => key == "good")
        ⟨[], true, some ⟨"good", "gemini-2.0-flash"⟩, "good", 7, 500⟩ "bad").2.2 = false :=
  reconfigure_skip (fun key => key == "good")
    ⟨[], true, some ⟨"good", "gemini-2.0-flash"⟩, "good", 7, 500⟩ "bad" rfl rfl

/-- C7: any sequence of `appendExchange` calls, starting from any transcript,
grows the transcript by exactly one exchange per call, with the appended
exchanges at the end in call order; no content is validated or rejected (the
exchanges, including empty or error-text assistant strings, are arbitrary). -/
theorem append_exchange_sequence (t : Transcript) (calls : List Exchange) :
    calls.foldl (fun acc e => appendExchange acc e.user e.assistant e.timestamp) t
      = t ++ calls
    ∧ (calls.foldl (fun acc e => appendExchange acc e.user e.assistant e.timestamp) t).length
      = t.length + calls.length := by
  have key : ∀ (cs : List Exchange) (t0 : Transcript),
      cs.foldl (fun acc e => appendExchange acc e.user e.assistant e.timestamp) t0
        = t0 ++ cs := by
    intro cs
    induction cs with
    | nil => intro t0; simp
    | cons a cs ih =>
      intro t0
      rw [List.foldl_cons, ih (appendExchange t0 a.user a.assistant a.timestamp)]
      simp [appendExchange]
  refine ⟨key calls t, ?_⟩
  rw [key calls t]
  simp

/-- C8, counterexample: the claim that changing the stored API key to a
different value invalidates and re-establishes the provider client is false on
the code: once configured, the sidebar block never re-validates.  Concretely,
with every key valid, submitting `"k2"` after a successful configuration with
`"k1"` leaves the client bound to `"k1"` instead of re-establishing one bound
to `"k2"`. -/
theorem key_change_no_reestablish :
    ¬ (∀ (valid : String → Bool) (s : SessionState) (k : String) (m : Client),
        s.model = some m → s.apiKeyConfigured = true → k ≠ s.apiKey →
        valid k = true →
        (submitApiKey valid s k).1.model = some ⟨k, "gemini-2.0-flash"⟩) := by
  intro hclaim
  have h := hclaim (fun _ => true)
      ⟨[], true, some ⟨"k1", "gemini-2.0-flash"⟩, "k1", 7, 500⟩ "k2"
      ⟨"k1", "gemini-2.0-flash"⟩ rfl rfl (by decide) rfl
  exact absurd h (by decide)

/-- C8, amended: a key submission re-establishes the client only when no valid
configuration is present; it never invalidates an existing client.  Every
step of the session either leaves the stored client unchanged or replaces it
by one bound to the key that just validated, so a non-null client always
corresponds to the key successfully validated at its creation — not
necessarily to the most recently entered key. -/
theorem client_provenance (valid : String → Bool)
    (send : Client → String → Except String String)
    (s : SessionState) (k u : String) (b : Bool) (now : Nat) :
    ((submitApiKey valid s k).1.model = s.model
      ∨ ((submitApiKey valid s k).1.model = some ⟨k, "gemini-2.0-flash"⟩
          ∧ valid k = true))
    ∧ (clearChat s).model = s.model
    ∧ (sendStep send s u b now).1.model = s.model := by
  refine ⟨?_, rfl, ?_⟩
  · by_cases hk : k = ""
    · subst hk
      left
      simp [submitApiKey]
    · by_cases hg : (!s.apiKeyConfigured || s.model.isNone) = true
      · by_cases hv : valid k = true
        · right
          exact ⟨by simp [submitApiKey, hk, hg, configure_gemini_api, hv], hv⟩
        · left
          simp [submitApiKey, hk, hg, configure_gemini_api, hv]
      · left
        simp [submitApiKey, hk, hg]
  · unfold sendStep
    split
    · cases hm : s.model with
      | none => exact hm
      | some m => simp [hm]
    · rfl

/-- C9: a submitted user input that is empty or consists only of whitespace is
a no-op: no provider call is made, no exchange is appended, and the session
state is unchanged. -/
theorem blank_input_noop (send : Client → String → Except String String)
    (s : SessionState) (u : String) (b : Bool) (now : Nat)
    (h : u.data.all isPySpace = true) :
    sendStep send s u b now = (s, none) := by
  have hdrop : u.data.dropWhile isPySpace = [] := by
    rw [List.dropWhile_eq_nil_iff]
    intro a ha
    exact List.all_eq_true.mp h a ha
  have hstrip : pyStrip u = "" := by
    simp [pyStrip, hdrop]
  simp [sendStep, hstrip]

/-- Witness for `blank_input_noop`: submitting `" \t\n "` in a configured
session with one exchange changes nothing and calls no provider. -/
theorem blank_input_noop_witness :
    sendStep (fun _ _ => .ok "reply")
        ⟨[⟨"q", "a", 0⟩], true, some ⟨"key", "gemini-2.0-flash"⟩, "key", 7, 500⟩
        " \t\n " true 1
      = (⟨[⟨"q", "a", 0⟩], true, some ⟨"key", "gemini-2.0-flash"⟩, "key", 7, 500⟩, none) :=
  blank_input_noop (fun _ _ => .ok "reply")
    ⟨[⟨"q", "a", 0⟩], true, some ⟨"key", "gemini-2.0-flash"⟩, "key", 7, 500⟩
    " \t\n " true 1 (by decide)

/-- C10: the temperature and max-token settings never flow into prompt
assembly or the provider call: two send steps from states differing only in
those settings make the identical provider request (same client handle, same
prompt) and produce the identical transcript. -/
theorem settings_noninterference (send : Client → String → Except String String)
    (s : SessionState) (t₁ t₂ m₁ m₂ : Nat) (u : String) (b : Bool) (now : Nat) :
    (sendStep send { s with temperature := t₁, maxTokens := m₁ } u b now).2
      = (sendStep send { s with temperature := t₂, maxTokens := m₂ } u b now).2
    ∧ (sendStep send { s with temperature := t₁, maxTokens := m₁ } u b now).1.messages
      = (sendStep send { s with temperature := t₂, maxTokens := m₂ } u b now).1.messages := by
  unfold sendStep
  cases hc : (s.apiKeyConfigured && b && !(pyStrip u == "")) with
  | false => simp [hc]
  | true =>
    cases hm : s.model with
    | none => simp [hc, hm]
    | some m => simp [hc, hm]

end Chatbot
